import Mathlib

/-!
Shallow embedding of the aio-index repository (src/aio_host.py and
src/aio_api.py) and proofs about its claims.

Python strings are modelled as Lean `String` values, manipulated through
their underlying `List Char` (Python strings are sequences of code
points).  Python `str.strip()` strips Unicode whitespace; we use
`Char.isWhitespace`, which agrees on the ASCII whitespace appearing in
the claims.  JSON values are modelled by the inductive `Json`;
`json.dumps`/`base64` wire encodings are elided as injective encodings,
so the content of a stored document is held as its `Json` value.
-/

namespace AioIndex

/-- Single pass of Python `str.replace(pat, "")` (replacement by the empty
string, the only multi-character replacement the source performs): scan left
to right, and at each position either delete a non-overlapping occurrence of
`pat` or keep one character.  The fuel argument is the length of the scanned
list, which bounds the number of scan steps; it is always sufficient because
every step consumes at least one character. -/
def removeAllAux (pat : List Char) : Nat → List Char → List Char
  | _, [] => []
  | 0, l => l
  | fuel+1, c :: rest =>
    if !pat.isEmpty && pat.isPrefixOf (c :: rest) then
      removeAllAux pat fuel (rest.drop (pat.length - 1))
    else
      c :: removeAllAux pat fuel rest

/-- Python `s.replace(pat, "")` on character lists. -/
def removeAll (pat l : List Char) : List Char :=
  removeAllAux pat l.length l

/-- Python `s.replace(ch, "_")` for a single character `ch` (the only other
replacements the source performs are single character to single character). -/
def replaceChar (ch rep : Char) (l : List Char) : List Char :=
  l.map (fun c => if c == ch then rep else c)

/-- Python `s.strip(ch)`: remove all leading and trailing occurrences of a
single character. -/
def stripChar (ch : Char) (l : List Char) : List Char :=
  ((l.dropWhile (fun c => c == ch)).reverse.dropWhile (fun c => c == ch)).reverse

/-- Python `s.strip()` with no argument: remove leading and trailing
whitespace. -/
def pyStrip (l : List Char) : List Char :=
  ((l.dropWhile Char.isWhitespace).reverse.dropWhile Char.isWhitespace).reverse

/-- Python `s.lstrip("/")`: remove all leading slash characters. -/
def lstripSlash (l : List Char) : List Char :=
  l.dropWhile (fun c => c == '/')

/-- Python `s.startswith(p)`. -/
def pyStartsWith (l p : List Char) : Bool :=
  p.isPrefixOf l

/-- Python `s.endswith("/")` for the single character used by the source:
the last character is a slash. -/
def endsWithSlash (l : List Char) : Bool :=
  l.getLast? == some '/'

/-- The characters the filename sanitizer rewrites to underscores
(aio_host.py line 103). -/
def sanitizeChars : List Char := ['/', '?', '&', '=', '#']

/-- The function `sanitize_filename` of aio_host.py (lines 101-105):
`url.replace("https://", "").replace("http://", "")`, then each of
`/ ? & = #` replaced by `_`, then `strip("_")`, then `+ ".json"`. -/
def sanitize_filename (url : String) : String :=
  let u := removeAll "http://".data (removeAll "https://".data url.data)
  let u := sanitizeChars.foldl (fun s ch => replaceChar ch '_' s) u
  ⟨stripChar '_' u ++ ".json".data⟩

/-- The URL normalization of aio_api.py (lines 57-61): `url.strip()`; if the
result starts with neither `http://` nor `https://`, prepend `https://` to
`url.lstrip("/")`; if the result ends with `/`, drop the final character. -/
def normalize_url (url : String) : String :=
  let u := pyStrip url.data
  let u :=
    if pyStartsWith u "http://".data || pyStartsWith u "https://".data then u
    else "https://".data ++ lstripSlash u
  if endsWithSlash u then ⟨u.dropLast⟩ else ⟨u⟩

/-- JSON values, the results of Python `json.loads`: objects are ordered
key-value lists (Python dicts have no duplicate keys), numbers are modelled
by integers (no claim depends on non-integral numbers). -/
inductive Json where
  | null : Json
  | bool : Bool → Json
  | num : Int → Json
  | str : String → Json
  | arr : List Json → Json
  | obj : List (String × Json) → Json

/-- Python truthiness of a JSON value, as used by `if not url:`. -/
def Json.truthy : Json → Bool
  | .null => false
  | .bool b => b
  | .num n => n != 0
  | .str s => s != ""
  | .arr xs => !xs.isEmpty
  | .obj fs => !fs.isEmpty

/-- Lookup of a key in a JSON value when it is an object, `none` otherwise. -/
def jsonLookup : Json → String → Option Json
  | .obj fs, k => fs.lookup k
  | _, _ => none

/-- Python `i["source"]` on a parsed JSON element (aio_host.py line 130):
a KeyError when a mapping lacks the key, a TypeError when the element is not
subscriptable by a string. -/
def getSource : Json → Except String Json
  | .obj fs =>
    match fs.lookup "source" with
    | some v => .ok v
    | none => .error "KeyError: source"
  | _ => .error "TypeError: element is not subscriptable by a string"

/-- Python iteration over the value bound to `existing_index` after parsing
(aio_host.py line 130): a list yields its elements, a dict yields its keys,
a string yields its one-character substrings, anything else raises. -/
def pyIter : Json → Except String (List Json)
  | .arr xs => .ok xs
  | .obj fs => .ok (fs.map (fun kv => Json.str kv.1))
  | .str s => .ok (s.data.map (fun c => Json.str (String.mk [c])))
  | _ => .error "TypeError: object is not iterable"

/-- Python `i["source"] != source_url` where `source_url` is a string:
a non-string JSON value is always unequal to a Python string. -/
def neSourceStr (v : Json) (u : String) : Bool :=
  match v with
  | .str s => s != u
  | _ => true

/-- The list comprehension `[i for i in existing_index if i["source"] != source_url]`
(aio_host.py line 130): evaluated left to right, raising at the first element
whose subscript fails. -/
def filterSources : List Json → String → Except String (List Json)
  | [], _ => .ok []
  | i :: rest, u => do
    let v ← getSource i
    let tail ← filterSources rest u
    if neSourceStr v u then pure (i :: tail) else pure tail

/-- One row of the global index, as constructed by `update_index`
(aio_host.py lines 112-117).  The score is whatever JSON value
`summary.get("aio_score", 0)` produced. -/
structure IndexEntry where
  source : String
  json : String
  aio_score : Json
  last_updated : String

/-- Encoding of a typed index entry as the JSON object the code builds. -/
def IndexEntry.toJson (i : IndexEntry) : Json :=
  .obj [("source", .str i.source), ("json", .str i.json),
        ("aio_score", i.aio_score), ("last_updated", .str i.last_updated)]

/-- The index merge of aio_host.py lines 129-131 on well-formed entries:
drop every entry whose source equals the source of the new entry, then append the
new entry. -/
def upsert (index : List IndexEntry) (e : IndexEntry) : List IndexEntry :=
  (index.filter (fun i => i.source != e.source)) ++ [e]

/-- The body of the PUT request assembled by `upload_json` (aio_host.py
lines 85-93).  The `json.dumps` plus base64 wire encoding of the content is
elided as an injective encoding; the content is held as its JSON value. -/
structure PutPayload where
  message : String
  content : Json
  sha : Option String

/-- The environment of one request: the behaviour of the three external
collaborators (page fetch and text extraction, language model, remote
store), plus the clock.  Each field is the observed outcome of the
corresponding remote call. -/
structure Env where
  /-- Outcome of `extract_text` on a URL: the extracted text, or the message
  of the exception the fetch raised. -/
  extract : String → Except String String
  /-- Outcome of `json.loads` on the model completion for a given page text
  and URL: `none` when the completion does not parse as JSON. -/
  lm : String → String → Option Json
  /-- Outcome of `get_existing_sha` on a path: the sha when the GET answers
  200, otherwise `none`. -/
  sha : String → Option String
  /-- Outcome of the GET of a path together with base64 and JSON decoding of
  its content (aio_host.py lines 121-127): `some v` when the GET answers 200
  and the content parses to the JSON value `v`; `none` when the GET answers
  non-200 or decoding raises. -/
  get : String → Option Json
  /-- Status code and response text of a PUT to a path. -/
  putStatus : String → Nat × String
  /-- The value of `datetime.utcnow().isoformat() + "Z"`. -/
  now : String

/-- Path rewriting performed by `upload_json` (aio_host.py lines 82-83):
every path not already starting with `data/` gets the `data/` prefix
prepended. -/
def resolvePath (path : String) : String :=
  if pyStartsWith path.data "data/".data then path else "data/" ++ path

/-- The function `upload_json` of aio_host.py (lines 79-98): rewrite the
path, look up an existing sha, PUT the payload, and raise
`GitHub upload failed: status - text` on a status other than 200 or 201.
Returns the PUT attempts performed (appended to the accumulator `writes`)
and the raised message, if any. -/
def upload_json (env : Env) (writes : List (String × PutPayload))
    (path : String) (data : Json) :
    List (String × PutPayload) × Option String :=
  let p := resolvePath path
  let sha := env.sha p
  let payload : PutPayload :=
    { message := if sha.isSome then "Update " ++ p else "Add " ++ p
      content := data
      sha := sha }
  let (status, text) := env.putStatus p
  (writes ++ [(p, payload)],
    if status == 200 || status == 201 then none
    else some ("GitHub upload failed: " ++ toString status ++ " - " ++ text))

/-- The entry dict built by `update_index` (aio_host.py lines 112-117). -/
def indexEntry (env : Env) (source_url filename : String) (aio_score : Json) : Json :=
  .obj [("source", .str source_url), ("json", .str ("data/" ++ filename)),
        ("aio_score", aio_score), ("last_updated", .str env.now)]

/-- The merge input of `update_index` (aio_host.py lines 119-130): when the
GET of the prior index fails or its content does not decode, the comprehension
runs over the empty list; when a JSON value was parsed, the comprehension
iterates over it and subscripts each element, either of which can raise. -/
def mergePrior (prior : Option Json) (source_url : String) : Except String (List Json) :=
  match prior with
  | none => .ok []
  | some j => do
    let elems ← pyIter j
    filterSources elems source_url

/-- The function `update_index` of aio_host.py (lines 108-135): read the
prior index from the fixed path `index.json`, drop entries for the source
URL, append the new entry, and upload the result through `upload_json`
(which rewrites the path).  Returns the PUT attempts performed and the
raised message, if any. -/
def update_index (env : Env) (writes : List (String × PutPayload))
    (source_url filename : String) (aio_score : Json) :
    List (String × PutPayload) × Option String :=
  match mergePrior (env.get "index.json") source_url with
  | .error e => (writes, some e)
  | .ok merged =>
    upload_json env writes "index.json"
      (.arr (merged ++ [indexEntry env source_url filename aio_score]))

/-- The degraded fallback record of `summarize` (aio_host.py line 68): the
first 120 characters of the page text with an ellipsis appended, empty
structured fields, and score 0. -/
def fallbackRecord (text : String) : Json :=
  .obj [("summary", .str ⟨text.data.take 120 ++ "...".data⟩),
        ("brand", .str ""), ("services", .arr []), ("location", .str ""),
        ("topics", .arr []), ("aio_score", .num 0)]

/-- The function `summarize` of aio_host.py (lines 37-68): return the parsed
model completion when `json.loads` succeeds, otherwise the degraded fallback
record built from the first 120 characters of the page text. -/
def summarize (env : Env) (text url : String) : Json :=
  match env.lm text url with
  | some j => j
  | none => fallbackRecord text

/-- Python `summary.get(key, default)`: an AttributeError when the value is
not a mapping. -/
def pyGet (j : Json) (key : String) (default : Json) : Except String Json :=
  match j with
  | .obj fs => .ok ((fs.lookup key).getD default)
  | _ => .error "AttributeError: object has no attribute get"

/-- One HTTP request to `/analyze` as the handler sees it: the method, the
`url` query parameter, and the outcome of `await request.json()` on a POST
body (`Except.error` when the body is not valid JSON). -/
structure ReqInput where
  is_post : Bool
  query_url : Option String
  body : Except Unit Json

/-- An HTTP response: status code and JSON body. -/
structure HttpResp where
  status : Nat
  body : Json

/-- URL resolution of aio_api.py lines 42-47: for a POST, an unparsable body
answers 400 `Invalid JSON body`; `url = url or data.get("url")` keeps a
truthy (non-empty) query parameter without touching the body, and otherwise
calls `data.get("url")`, whose AttributeError on a non-dict body is caught
by the same handler.  For a GET, the query parameter is used as is. -/
def resolveUrl (req : ReqInput) : Except HttpResp (Option Json) :=
  if req.is_post then
    match req.body with
    | .error _ => .error ⟨400, .obj [("error", .str "Invalid JSON body")]⟩
    | .ok data =>
      let fromBody : Except HttpResp (Option Json) :=
        match data with
        | .obj fs => .ok (fs.lookup "url")
        | _ => .error ⟨400, .obj [("error", .str "Invalid JSON body")]⟩
      match req.query_url with
      | some q => if q != "" then .ok (some (.str q)) else fromBody
      | none => fromBody
  else
    .ok (req.query_url.map .str)

/-- Python truthiness of the resolved `url` value in `if not url:`. -/
def urlTruthy : Option Json → Bool
  | none => false
  | some j => j.truthy

/-- The body of the `try` block of `analyze` (aio_api.py lines 53-96) once a
string URL is in hand: normalize, extract, summarize, upload the document,
update the index, and answer 200; any raised message answers 500 with the
message as the error body.  The second component is the list of PUT attempts
performed. -/
def analyzeCore (env : Env) (raw : String) : HttpResp × List (String × PutPayload) :=
  let url := normalize_url raw
  match env.extract url with
  | .error e => (⟨500, .obj [("error", .str e)]⟩, [])
  | .ok text =>
    let summary := summarize env text url
    let payload : Json := .obj [("source", .str url),
      ("generated_at", .str env.now), ("data", summary)]
    let filename := sanitize_filename url
    match upload_json env [] filename payload with
    | (w1, some e) => (⟨500, .obj [("error", .str e)]⟩, w1)
    | (w1, none) =>
      match pyGet summary "aio_score" (.num 0) with
      | .error e => (⟨500, .obj [("error", .str e)]⟩, w1)
      | .ok score =>
        match update_index env w1 url filename score with
        | (w2, some e) => (⟨500, .obj [("error", .str e)]⟩, w2)
        | (w2, none) =>
          match pyGet summary "aio_score" (.num 0),
                pyGet summary "summary" (.str "") with
          | .ok sc, .ok sm =>
            (⟨200, .obj [("status", .str "ok"), ("url", .str url),
               ("aio_score", sc), ("summary", sm)]⟩, w2)
          | .error e, _ => (⟨500, .obj [("error", .str e)]⟩, w2)
          | _, .error e => (⟨500, .obj [("error", .str e)]⟩, w2)

/-- The handler `analyze` of aio_api.py (lines 36-96): resolve the URL from
query and body, answer 400 `Missing URL` on a falsy value, raise an
AttributeError (answered as 500) on a non-string truthy value at
`url.strip()`, and otherwise run the orchestration. -/
def analyze (env : Env) (req : ReqInput) : HttpResp × List (String × PutPayload) :=
  match resolveUrl req with
  | .error resp => (resp, [])
  | .ok urlOpt =>
    if urlTruthy urlOpt then
      match urlOpt with
      | some (.str raw) => analyzeCore env raw
      | _ => (⟨500, .obj [("error",
          .str "AttributeError: object has no attribute strip")]⟩, [])
    else
      (⟨400, .obj [("error", .str "Missing URL")]⟩, [])

/-- Whether a parsed JSON element would raise under `i["source"]`: it is not
an object, or it is an object without the key. -/
def lacksSource (i : Json) : Bool :=
  match i with
  | .obj fs => (fs.lookup "source").isNone
  | _ => true

/-- Environment template for concrete witnesses: extraction succeeds with a
fixed page text, the model completion parse outcome is `lmr`, no stored sha,
the prior-index GET behaves as `g`, every PUT answers `put`, and the clock
is fixed. -/
def mkEnv (lmr : Option Json) (g : String → Option Json) (put : Nat × String) : Env :=
  { extract := fun _ => .ok "page text"
    lm := fun _ _ => lmr
    sha := fun _ => none
    get := g
    putStatus := fun _ => put
    now := "2024-01-01T00:00:00Z" }

/-- Concrete index entry for URL a.com with score 10. -/
def entA : IndexEntry := ⟨"https://a.com", "data/a.com.json", .num 10, "t0"⟩

/-- Concrete replacement entry for URL a.com with score 20. -/
def entA2 : IndexEntry := ⟨"https://a.com", "data/a.com.json", .num 20, "t1"⟩

/-- Concrete index entry for URL b.com. -/
def entB : IndexEntry := ⟨"https://b.com", "data/b.com.json", .num 7, "t0"⟩

/-- Environment whose store rejects every PUT with 403 Forbidden. -/
def env403 : Env := mkEnv none (fun _ => none) (403, "Forbidden")

/-- Environment where every remote call succeeds and no prior index exists. -/
def envHappy : Env := mkEnv none (fun _ => none) (201, "created")

/-- Environment where the model completion parses to the empty JSON object. -/
def envLmEmptyObj : Env := mkEnv (some (.obj [])) (fun _ => none) (200, "OK")

/-- Environment with no prior index document and an accepting store. -/
def env7a : Env := mkEnv none (fun _ => none) (200, "OK")

/-- Environment whose prior index parses to the empty JSON array. -/
def env7b : Env :=
  mkEnv none (fun p => if p = "index.json" then some (.arr []) else none) (200, "OK")

/-- Environment whose prior index parses to the empty JSON object. -/
def envIdxEmptyObj : Env :=
  mkEnv none (fun p => if p = "index.json" then some (.obj []) else none) (200, "OK")

/-- Environment whose prior index parses to an array holding one object that
lacks the source key. -/
def envIdxBad : Env :=
  mkEnv none (fun p => if p = "index.json" then some (.arr [.obj []]) else none)
    (200, "OK")

/-- Concrete prior index entry for an unrelated URL. -/
def e0 : Json :=
  .obj [("source", .str "https://old.example"),
        ("json", .str "data/old.example.json"), ("aio_score", .num 5),
        ("last_updated", .str "2023-01-01T00:00:00Z")]

/-- Environment whose prior top-level index holds the entry `e0` and whose
store accepts writes. -/
def envC1 : Env :=
  mkEnv none (fun p => if p = "index.json" then some (.arr [e0]) else none)
    (201, "created")

/-- Modelled from the words of claim C8: the scheme markers are stripped only
when one occurs as a leading segment of the URL; the character replacement,
underscore trimming and extension steps are as in the code. -/
def sanitize_filename_claim (url : String) : String :=
  let u :=
    if pyStartsWith url.data "https://".data then url.data.drop 8
    else if pyStartsWith url.data "http://".data then url.data.drop 7
    else url.data
  let u := sanitizeChars.foldl (fun s ch => replaceChar ch '_' s) u
  ⟨stripChar '_' u ++ ".json".data⟩

/-- The claim C8 as amended: every occurrence of the https marker and then
every occurrence of the http marker is removed, wherever it appears in the
URL; then slash, question mark, ampersand, equals and hash become
underscores, underscores are trimmed at both ends, and the json extension is
appended. -/
def sanitize_filename_amended (url : String) : String :=
  let u := removeAll "http://".data (removeAll "https://".data url.data)
  let u :=
    replaceChar '#' '_' (replaceChar '=' '_' (replaceChar '&' '_'
      (replaceChar '?' '_' (replaceChar '/' '_' u))))
  ⟨stripChar '_' u ++ ".json".data⟩

/-- Modelled from the words of claim C9: trim surrounding whitespace, prepend
the https scheme (after stripping leading slashes) whenever the value does
not begin with a scheme, then remove exactly one trailing slash. -/
def normalize_url_claim (url : String) : String :=
  let trimmed := pyStrip url.data
  let schemed :=
    if pyStartsWith trimmed "http://".data || pyStartsWith trimmed "https://".data
    then trimmed
    else "https://".data ++ lstripSlash trimmed
  if endsWithSlash schemed then ⟨schemed.dropLast⟩ else ⟨schemed⟩

/-- Removing entries for a source and then keeping only that source leaves
nothing. -/
lemma filter_remove_then_keep (l : List IndexEntry) (X : String) :
    (l.filter (fun i => i.source != X)).filter (fun i => i.source == X) = [] := by
  rw [List.filter_filter]
  rw [List.filter_eq_nil_iff]
  intro a _
  by_cases h : a.source = X <;> simp [h]

/-- Removing entries for a source twice is the same as doing it once. -/
lemma filter_remove_idem (l : List IndexEntry) (X : String) :
    (l.filter (fun i => i.source != X)).filter (fun i => i.source != X) =
      l.filter (fun i => i.source != X) := by
  rw [List.filter_filter]
  congr 1
  funext a
  exact Bool.and_self _

/-- Subscripting the JSON encoding of a typed entry yields its source. -/
lemma getSource_toJson (i : IndexEntry) : getSource i.toJson = .ok (.str i.source) := rfl

/-- On a list of well-formed entries the comprehension of update_index never
raises and agrees with the typed filter. -/
lemma filterSources_map_toJson (l : List IndexEntry) (u : String) :
    filterSources (l.map IndexEntry.toJson) u =
      .ok ((l.filter (fun i => i.source != u)).map IndexEntry.toJson) := by
  induction l with
  | nil => rfl
  | cons a l ih =>
    rw [List.map_cons, filterSources, getSource_toJson, List.filter_cons]
    cases h : a.source != u <;>
      simp [ih, neSourceStr, h, Except.bind, Bind.bind, pure, Except.pure]

/-- The update_index merge on the JSON encodings of well-formed entries is
exactly the typed upsert. -/
lemma mergePrior_models_upsert (l : List IndexEntry) (e : IndexEntry) :
    (mergePrior (some (.arr (l.map IndexEntry.toJson))) e.source).map
        (fun kept => kept ++ [e.toJson]) =
      .ok ((upsert l e).map IndexEntry.toJson) := by
  simp [mergePrior, pyIter, filterSources_map_toJson, upsert, Except.map,
    Except.bind, Bind.bind]

/-- C3: upserting an entry `e` for URL `X` into an index containing an entry
for `X` yields a sequence whose only entry for `X` is `e`, whose entries for
other URLs are those of the input in their original relative order, and
whose last element is `e`. -/
theorem c3_upsert_replacement (index : List IndexEntry) (e : IndexEntry) (X : String)
    (hmem : ∃ i ∈ index, i.source = X) (he : e.source = X) :
    ((upsert index e).filter (fun i => i.source == X)) = [e] ∧
    ((upsert index e).filter (fun i => i.source != X)) =
      index.filter (fun i => i.source != X) ∧
    (upsert index e).getLast? = some e := by
  subst he
  refine ⟨?_, ?_, List.getLast?_concat _⟩
  · rw [upsert, List.filter_append, filter_remove_then_keep]
    simp
  · rw [upsert, List.filter_append, filter_remove_idem]
    simp

/-- Witness for C3 at a concrete two-entry index: replacing the score-10
entry for a.com by a score-20 entry. -/
theorem c3_upsert_replacement_witness :
    ((upsert [entA, entB] entA2).filter (fun i => i.source == "https://a.com")) = [entA2] ∧
    ((upsert [entA, entB] entA2).filter (fun i => i.source != "https://a.com")) =
      [entA, entB].filter (fun i => i.source != "https://a.com") ∧
    (upsert [entA, entB] entA2).getLast? = some entA2 :=
  c3_upsert_replacement [entA, entB] entA2 "https://a.com"
    ⟨entA, List.mem_cons_self entA [entB], rfl⟩ rfl

/-- C4: the upsert is idempotent, its result holds exactly one entry for the
source of the new entry, and it preserves the invariant of at most one entry per
distinct source. -/
theorem c4_upsert_idempotent (index : List IndexEntry) (e : IndexEntry) :
    upsert (upsert index e) e = upsert index e ∧
    ((upsert index e).filter (fun i => i.source == e.source)) = [e] ∧
    ((∀ s, ((index.filter (fun i => i.source == s)).length ≤ 1)) →
      ∀ s, (((upsert index e).filter (fun i => i.source == s)).length ≤ 1)) := by
  refine ⟨?_, ?_, ?_⟩
  · simp only [upsert, List.filter_append, filter_remove_idem]
    simp
  · rw [upsert, List.filter_append, filter_remove_then_keep]
    simp
  · intro h s
    by_cases hs : e.source = s
    · subst hs
      rw [upsert, List.filter_append, filter_remove_then_keep]
      simp
    · rw [upsert, List.filter_append]
      have h2 : ([e].filter (fun i => i.source == s)) = [] := by simp [hs]
      rw [h2, List.append_nil]
      calc ((index.filter (fun i => i.source != e.source)).filter
              (fun i => i.source == s)).length
          ≤ (index.filter (fun i => i.source == s)).length :=
            ((List.filter_sublist index).filter _).length_le
        _ ≤ 1 := h s

/-- Witness for C4 at a concrete two-entry index satisfying the invariant. -/
theorem c4_upsert_idempotent_witness :
    upsert (upsert [entA, entB] entA2) entA2 = upsert [entA, entB] entA2 ∧
    ((upsert [entA, entB] entA2).filter (fun i => i.source == entA2.source)) = [entA2] ∧
    (∀ s, (((upsert [entA, entB] entA2).filter (fun i => i.source == s)).length ≤ 1)) := by
  obtain ⟨h1, h2, h3⟩ := c4_upsert_idempotent [entA, entB] entA2
  refine ⟨h1, h2, h3 ?_⟩
  intro s
  by_cases ha : entA.source = s <;> by_cases hb : entB.source = s
  · rw [← hb] at ha
    exact absurd ha (by decide)
  all_goals simp [List.filter_cons, ha, hb]

/-- Counterexample to C8: on a URL holding a second https marker after a
query key, the code removes every occurrence while the prefix-stripping
reading of the claim keeps the inner one, so the derived filenames
differ. -/
theorem c8_counterexample :
    sanitize_filename "https://a.com/?next=https://b.com" =
      "a.com__next_b.com.json" ∧
    sanitize_filename_claim "https://a.com/?next=https://b.com" =
      "a.com__next_https:__b.com.json" ∧
    sanitize_filename "https://a.com/?next=https://b.com" ≠
      sanitize_filename_claim "https://a.com/?next=https://b.com" := by
  refine ⟨rfl, rfl, ?_⟩
  decide

/-- C8 as amended: the derived filename removes every occurrence of the
https and http markers (not only a leading one), replaces the five special
characters by underscores, trims underscores, and appends the json
extension; the concrete example derivation of the claim holds. -/
theorem c8_filename_derivation :
    (∀ url, sanitize_filename url = sanitize_filename_amended url) ∧
    sanitize_filename "https://example.com/a?b=1" = "example.com_a_b_1.json" :=
  ⟨fun _ => rfl, rfl⟩

/-- C9: the URL normalization of the handler is the claimed trim, scheme
prepending and single-trailing-slash removal pipeline, and the three
concrete examples of the claim hold. -/
theorem c9_normalization :
    (∀ url, normalize_url url = normalize_url_claim url) ∧
    normalize_url "example.com" = "https://example.com" ∧
    normalize_url "http://example.com/" = "http://example.com" ∧
    normalize_url "  https://a.com/  " = "https://a.com" :=
  ⟨fun _ => rfl, rfl, rfl, rfl⟩

/-- Counterexample to C6: when the model completion parses as JSON to the
empty object, summarize returns that object unchanged, a record in which the
summary field (like every other field) is absent. -/
theorem c6_counterexample :
    summarize envLmEmptyObj "page text" "https://example.com" = .obj [] ∧
    jsonLookup (summarize envLmEmptyObj "page text" "https://example.com")
      "summary" = none :=
  ⟨rfl, rfl⟩

/-- C6 as amended: exactly when the model completion fails to parse as JSON,
summarize returns the degraded fallback record, whose six fields are the
first 120 characters of the input text with an ellipsis appended, empty
brand, services, location and topics, and score 0; a completion that parses
is returned unchanged and may lack fields. -/
theorem c6_fallback (env : Env) (text url : String)
    (h : env.lm text url = none) :
    summarize env text url = fallbackRecord text ∧
    jsonLookup (fallbackRecord text) "summary" =
      some (.str ⟨text.data.take 120 ++ "...".data⟩) ∧
    jsonLookup (fallbackRecord text) "brand" = some (.str "") ∧
    jsonLookup (fallbackRecord text) "services" = some (.arr []) ∧
    jsonLookup (fallbackRecord text) "location" = some (.str "") ∧
    jsonLookup (fallbackRecord text) "topics" = some (.arr []) ∧
    jsonLookup (fallbackRecord text) "aio_score" = some (.num 0) := by
  refine ⟨?_, rfl, rfl, rfl, rfl, rfl, rfl⟩
  rw [summarize, h]

/-- Witness for C6 at a concrete unparseable completion. -/
theorem c6_fallback_witness :
    summarize envHappy "page text" "https://example.com" =
      fallbackRecord "page text" ∧
    jsonLookup (fallbackRecord "page text") "summary" =
      some (.str "page text...") :=
  ⟨(c6_fallback envHappy "page text" "https://example.com" rfl).1,
   (c6_fallback envHappy "page text" "https://example.com" rfl).2.1⟩

/-- A GET request with a non-empty query URL runs the orchestration body. -/
lemma analyze_get_eq (env : Env) (u : String) (b : Except Unit Json)
    (hu : (u != "") = true) :
    analyze env ⟨false, some u, b⟩ = analyzeCore env u := by
  simp [analyze, resolveUrl, urlTruthy, Json.truthy, hu]

/-- Counterexample to C5: a POST body whose URL is a whitespace-only string
passes the falsiness check (which runs before trimming), so the request is
not answered 400 Missing URL; with cooperating collaborators it proceeds all
the way to a 200 answer and two store writes. -/
theorem c5_counterexample :
    (analyze envHappy ⟨true, none, .ok (.obj [("url", .str "   ")])⟩).1.status
      = 200 ∧
    ((analyze envHappy ⟨true, none,
        .ok (.obj [("url", .str "   ")])⟩).2.map Prod.fst)
      = ["data/https:.json", "data/index.json"] :=
  ⟨rfl, rfl⟩

/-- C5 as amended: whenever the resolved URL value is missing or falsy
(absent, empty string, JSON null, zero or false) the handler answers 400
Missing URL and performs zero store writes; the check runs before trimming,
so a whitespace-only URL is truthy and proceeds into orchestration. -/
theorem c5_missing_url (env : Env) (req : ReqInput) (u : Option Json)
    (hr : resolveUrl req = .ok u) (hf : urlTruthy u = false) :
    analyze env req = (⟨400, .obj [("error", .str "Missing URL")]⟩, []) := by
  rw [analyze, hr]
  simp [hf]

/-- Witness for C5 at a GET request with no query URL. -/
theorem c5_missing_url_witness :
    analyze envHappy ⟨false, none, .ok .null⟩ =
      (⟨400, .obj [("error", .str "Missing URL")]⟩, []) :=
  c5_missing_url envHappy ⟨false, none, .ok .null⟩ none rfl rfl

/-- C2: when the store rejects the document PUT with a non-success status,
the handler answers 500 with an error body embedding the status code of the store
and response text, and the document PUT is the only write attempted — the
index document is never touched. -/
theorem c2_store_failure (env : Env) (u text : String) (s : Nat) (t : String)
    (hu : u ≠ "")
    (hx : env.extract (normalize_url u) = .ok text)
    (hput : env.putStatus (resolvePath (sanitize_filename (normalize_url u))) = (s, t))
    (h200 : s ≠ 200) (h201 : s ≠ 201) :
    (analyze env ⟨false, some u, .ok .null⟩).1.status = 500 ∧
    (analyze env ⟨false, some u, .ok .null⟩).1.body =
      .obj [("error",
        .str ("GitHub upload failed: " ++ toString s ++ " - " ++ t))] ∧
    ((analyze env ⟨false, some u, .ok .null⟩).2.map Prod.fst) =
      [resolvePath (sanitize_filename (normalize_url u))] := by
  have hu' : (u != "") = true := bne_iff_ne.mpr hu
  have hfail : (s == 200 || s == 201) = false := by simp [h200, h201]
  rw [analyze_get_eq env u _ hu']
  rw [analyzeCore, hx]
  simp only [upload_json, hput, hfail, Bool.false_eq_true, if_false,
    List.nil_append, List.map_cons, List.map_nil]
  exact ⟨trivial, trivial, trivial⟩

/-- Witness for C2 with a store answering 403 Forbidden. -/
theorem c2_store_failure_witness :
    (analyze env403 ⟨false, some "example.com", .ok .null⟩).1.status = 500 ∧
    (analyze env403 ⟨false, some "example.com", .ok .null⟩).1.body =
      .obj [("error", .str "GitHub upload failed: 403 - Forbidden")] ∧
    ((analyze env403 ⟨false, some "example.com", .ok .null⟩).2.map Prod.fst) =
      ["data/example.com.json"] := by
  have h := c2_store_failure env403 "example.com" "page text" 403 "Forbidden"
    (by decide) rfl rfl (by decide) (by decide)
  exact ⟨h.1, h.2.1, h.2.2⟩

/-- Looking up the score key in the fallback record yields the default
score 0. -/
lemma pyGet_fallback_score (text : String) :
    pyGet (fallbackRecord text) "aio_score" (.num 0) = .ok (.num 0) := rfl

/-- Looking up the summary key in the fallback record yields the truncated
page text. -/
lemma pyGet_fallback_summary (text : String) :
    pyGet (fallbackRecord text) "summary" (.str "") =
      .ok (.str ⟨text.data.take 120 ++ "...".data⟩) := rfl

/-- C7: when the GET of the prior index answers non-200 or its content fails
to decode or parse (`env.get "index.json" = none`), update_index behaves
exactly as it does against a prior index parsing to the empty array, and an
analysis request in such an environment still succeeds with 200. -/
theorem c7_missing_index (env env2 : Env) (w : List (String × PutPayload))
    (su fn u text : String) (sc : Json)
    (h1 : env.get "index.json" = none)
    (h2 : env2.get "index.json" = some (.arr []))
    (hsha : env2.sha = env.sha) (hput : env2.putStatus = env.putStatus)
    (hnow : env2.now = env.now)
    (hu : u ≠ "")
    (hx : env.extract (normalize_url u) = .ok text)
    (hlm : env.lm text (normalize_url u) = none)
    (hok : ∀ p, env.putStatus p = (200, "OK")) :
    update_index env w su fn sc = update_index env2 w su fn sc ∧
    (analyze env ⟨false, some u, .ok .null⟩).1.status = 200 := by
  have h200ok : ((200 == 200 || 200 == 201 : Bool)) = true := rfl
  constructor
  · rw [update_index, update_index, h1, h2]
    simp [mergePrior, pyIter, filterSources, upload_json, indexEntry,
      hsha, hput, hnow, Bind.bind, Except.bind]
  · rw [analyze_get_eq env u _ (bne_iff_ne.mpr hu)]
    rw [analyzeCore, hx]
    simp only [summarize, hlm, upload_json, hok, h200ok, if_true,
      pyGet_fallback_score, pyGet_fallback_summary,
      update_index, h1, mergePrior, List.nil_append]

/-- Witness for C7: a concrete environment with no readable prior index
against one whose prior index is the empty array. -/
theorem c7_missing_index_witness :
    update_index env7a [] "https://a.com" "a.com.json" (.num 0) =
      update_index env7b [] "https://a.com" "a.com.json" (.num 0) ∧
    (analyze env7a ⟨false, some "example.com", .ok .null⟩).1.status = 200 :=
  c7_missing_index env7a env7b [] "https://a.com" "a.com.json" "example.com"
    "page text" (.num 0) rfl rfl rfl rfl rfl (by decide) rfl rfl (fun _ => rfl)

/-- An element that lacks the source key raises under subscripting. -/
lemma getSource_of_lacks (a : Json) (h : lacksSource a = true) :
    ∃ e, getSource a = .error e := by
  cases a with
  | obj fs =>
    have h' : List.lookup "source" fs = none := Option.isNone_iff_eq_none.mp h
    exact ⟨"KeyError: source", by simp only [getSource, h']⟩
  | null => exact ⟨_, rfl⟩
  | bool b => exact ⟨_, rfl⟩
  | num n => exact ⟨_, rfl⟩
  | str s => exact ⟨_, rfl⟩
  | arr xs => exact ⟨_, rfl⟩

/-- An element that has the source key subscripts successfully. -/
lemma getSource_of_has (a : Json) (h : lacksSource a = false) :
    ∃ v, getSource a = .ok v := by
  cases a with
  | obj fs =>
    cases hl : List.lookup "source" fs with
    | none =>
      have hc : lacksSource (.obj fs) = true := by
        show (List.lookup "source" fs).isNone = true
        rw [hl]
        rfl
      rw [hc] at h
      cases h
    | some v => exact ⟨v, by simp only [getSource, hl]⟩
  | null => cases h
  | bool b => cases h
  | num n => cases h
  | str s => cases h
  | arr xs => cases h

/-- The comprehension raises whenever some element of the parsed array lacks
the source key. -/
lemma filterSources_error_of_bad (items : List Json) (u : String)
    (h : ∃ i ∈ items, lacksSource i = true) :
    ∃ e, filterSources items u = .error e := by
  induction items with
  | nil =>
    obtain ⟨i, hi, _⟩ := h
    cases hi
  | cons a rest ih =>
    cases ha : lacksSource a with
    | true =>
      obtain ⟨e, he⟩ := getSource_of_lacks a ha
      exact ⟨e, by simp [filterSources, he, Bind.bind, Except.bind]⟩
    | false =>
      obtain ⟨v, hv⟩ := getSource_of_has a ha
      have hrest : ∃ i ∈ rest, lacksSource i = true := by
        obtain ⟨i, hi, hl⟩ := h
        cases hi with
        | head => rw [hl] at ha; cases ha
        | tail _ hm => exact ⟨i, hm, hl⟩
      obtain ⟨e, he⟩ := ih hrest
      exact ⟨e, by simp [filterSources, hv, he, Bind.bind, Except.bind]⟩

/-- Counterexample to C10: a prior index that parses to the empty JSON
object is not an array, yet the comprehension iterates over its zero keys
without raising, and the request succeeds with 200 rather than failing with
500. -/
theorem c10_counterexample :
    mergePrior (some (.obj [])) "https://example.com" = .ok [] ∧
    (analyze envIdxEmptyObj ⟨false, some "example.com", .ok .null⟩).1.status
      = 200 :=
  ⟨rfl, rfl⟩

/-- C10 as amended: when the prior index parses to an array holding an
element that is not an object with a source key, update_index raises and the
request fails with 500, the document PUT being the only write attempted; the
empty-index fallback covers read failures and JSON parse errors, but a
parsed non-array value that iterates to nothing (an empty object or empty
string) is also treated as empty rather than raising. -/
theorem c10_malformed_index (env : Env) (u text : String) (items : List Json)
    (hu : u ≠ "")
    (hx : env.extract (normalize_url u) = .ok text)
    (hlm : env.lm text (normalize_url u) = none)
    (hok : ∀ p, env.putStatus p = (200, "OK"))
    (hidx : env.get "index.json" = some (.arr items))
    (hbad : ∃ i ∈ items, lacksSource i = true) :
    (analyze env ⟨false, some u, .ok .null⟩).1.status = 500 ∧
    ((analyze env ⟨false, some u, .ok .null⟩).2.map Prod.fst) =
      [resolvePath (sanitize_filename (normalize_url u))] := by
  have h200ok : ((200 == 200 || 200 == 201 : Bool)) = true := rfl
  obtain ⟨e, he⟩ := filterSources_error_of_bad items (normalize_url u) hbad
  rw [analyze_get_eq env u _ (bne_iff_ne.mpr hu)]
  rw [analyzeCore, hx]
  simp only [summarize, hlm, upload_json, hok, h200ok, if_true,
    pyGet_fallback_score, update_index, hidx, mergePrior, pyIter, he,
    Bind.bind, Except.bind, List.nil_append, List.map_cons, List.map_nil]
  exact ⟨trivial, trivial⟩

/-- Witness for C10 at a prior index parsing to an array holding one empty
object. -/
theorem c10_malformed_index_witness :
    (analyze envIdxBad ⟨false, some "example.com", .ok .null⟩).1.status = 500 ∧
    ((analyze envIdxBad ⟨false, some "example.com", .ok .null⟩).2.map Prod.fst) =
      ["data/example.com.json"] := by
  have h := c10_malformed_index envIdxBad "example.com" "page text" [.obj []]
    (by decide) rfl rfl (fun _ => rfl) rfl ⟨.obj [], List.mem_cons_self _ _, rfl⟩
  exact ⟨h.1, h.2⟩

/-- C1, evaluated at a failing input: upload_json rewrites the fixed index
path to `data/index.json`, which differs from the `index.json` the prior
index is read from.  In a successful concrete request the two PUT attempts
go to the document path under `data/` and to `data/index.json`; the content
of the index PUT includes the entry found at the top-level `index.json` read
path (the environment only answers there), exhibiting the read path and the
write path of the index as distinct. -/
theorem c1_index_path :
    resolvePath "index.json" = "data/index.json" ∧
    ("data/index.json" : String) ≠ "index.json" ∧
    ((analyze envC1 ⟨false, some "example.com", .ok .null⟩).2.map Prod.fst) =
      ["data/example.com.json", "data/index.json"] ∧
    ((analyze envC1 ⟨false, some "example.com", .ok .null⟩).2.getLast?).map
        (fun wr => wr.2.content) =
      some (.arr [e0,
        indexEntry envC1 "https://example.com" "example.com.json" (.num 0)]) := by
  refine ⟨rfl, by decide, rfl, rfl⟩

end AioIndex
